import Mathlib

/-!
Formalisation of `src/local_gpt_sentiment_analysis.py`: the backend
adapters, the streaming reassembly loop, the response parse step and the
orchestrator `sentiment_analyzer`.  External library calls (`json.loads`,
the translation model, the HTTP clients) are modelled as oracle
parameters; everything the repository itself computes is embedded
directly from the source.
-/

/-- A JSON value, as produced by Python `json.loads`.  Numbers are
modelled as integers (the claims under study only concern integer
scores). -/
inductive Json where
  | null : Json
  | bool (b : Bool) : Json
  | num (n : Int) : Json
  | str (s : String) : Json
  | arr (elems : List Json) : Json
  | obj (fields : List (String × Json)) : Json
deriving Repr

/-- Last-occurrence lookup in an association list: Python `json.loads`
builds a `dict`, where a duplicated key keeps its last value. -/
def lookupLast (k : String) : List (String × Json) → Option Json
  | [] => none
  | (k', v) :: rest =>
    match lookupLast k rest with
    | some w => some w
    | none => if k' = k then some v else none

/-- Python subscription `body[k]` on a decoded JSON value: succeeds
exactly when the value is an object (a `dict`) holding the key; on any
other shape the subscription raises, modelled as `none`. -/
def getKey (v : Json) (k : String) : Option Json :=
  match v with
  | Json.obj fields => lookupLast k fields
  | _ => none

/-- The value `sentiment_analyzer` hands back to its caller: either the
tuple `(res_dict['sentiment_score'], res_dict['offensive_score'])` —
whatever JSON values those keys hold, no validation is performed — or
the sentinel `-1` (source line 172). -/
inductive ScoreResult where
  | pair (sentiment offensive : Json) : ScoreResult
  | sentinel : ScoreResult
deriving Repr

/-- The parse step of `sentiment_analyzer` (source lines 167–172): the
argument is the outcome of `json.loads(response)` (`none` models a
raised decoding error).  Both key subscriptions must succeed; any
failure falls into the `except` clause and yields the sentinel. -/
def parseScores (decoded : Option Json) : ScoreResult :=
  match decoded with
  | none => ScoreResult.sentinel
  | some v =>
    match getKey v "sentiment_score", getKey v "offensive_score" with
    | some s, some o => ScoreResult.pair s o
    | _, _ => ScoreResult.sentinel

/-- One decoded line of the Ollama wire stream, as the loop body of
`get_completion_ollama` (source lines 80–89) inspects it: the presence
of `"error"`, the optional `"response"` fragment (`body.get("response", "")`)
and the truthiness of `body.get("done")`. -/
structure StreamChunk where
  error : Option String
  response : Option String
  done : Bool
deriving Repr, DecidableEq

/-- The loop of `get_completion_ollama` over the decoded stream lines
(source lines 79–89): raise on the first chunk carrying `"error"`,
append each chunk's fragment, break after appending the fragment of the
first chunk whose `done` is truthy; the loop also ends when the stream
is exhausted.  Returns the list `parts`. -/
def collectParts : List StreamChunk → Except String (List String)
  | [] => Except.ok []
  | c :: rest =>
    match c.error with
    | some e => Except.error e
    | none =>
      let content := c.response.getD ""
      if c.done then Except.ok [content]
      else (collectParts rest).map (fun parts => content :: parts)

/-- Python `str.strip()` with no argument: drop leading and trailing
whitespace. -/
def stripChars (s : List Char) : List Char :=
  ((s.dropWhile Char.isWhitespace).reverse.dropWhile Char.isWhitespace).reverse

/-- `str.strip()` on a `String`. -/
def pyStrip (s : String) : String :=
  String.mk (stripChars s.data)

/-- `get_completion_ollama` after the HTTP layer (source lines 79–92):
process the decoded stream chunks, then `"".join(parts).strip()`.
A raised exception is the `Except.error` case. -/
def get_completion_ollama (chunks : List StreamChunk) : Except String String :=
  (collectParts chunks).map (fun parts => pyStrip (String.join parts))

/-- The request body of `get_completion_ollama`'s HTTP POST (source
lines 74–77) together with the keyword arguments of the
`requests.post(url, json=data)` call itself: no `timeout` keyword is
passed, so the request is issued with `requests`' default `timeout=None`,
modelled as `none`. -/
structure HttpPostRequest where
  url : String
  prompt : String
  model : String
  stream : Bool
  timeout : Option Nat
deriving Repr, DecidableEq

/-- The local model name (source line 17). -/
def OLLAMA_MODEL : String := "mistral"

/-- The remote model name (source line 18). -/
def OPENAI_MODEL : String := "gpt-4-1106-preview"

/-- The HTTP POST request issued by `get_completion_ollama` (source
lines 74–77): `data = {"prompt": prompt, "model": model, "stream": True}`
and `requests.post(url, json=data)` with no timeout argument. -/
def ollamaPostRequest (prompt model url : String) : HttpPostRequest :=
  { url := url, prompt := prompt, model := model, stream := true, timeout := none }

/-- One chat message of the OpenAI request (source line 112). -/
structure ChatMessage where
  role : String
  content : String
deriving Repr, DecidableEq

/-- The `response_format` argument (source line 109). -/
structure ResponseFormat where
  type : String
deriving Repr, DecidableEq

/-- The single chat-completion request built by `get_completion_openai`
(source lines 107–115).  The `create` call passes no `stream` argument,
so the API default `stream := false` applies. -/
structure ChatRequest where
  model : String
  response_format : ResponseFormat
  messages : List ChatMessage
  temperature : Int
  stream : Bool
deriving Repr, DecidableEq

structure ChatChoice where
  message : ChatMessage
deriving Repr, DecidableEq

structure ChatResponse where
  choices : List ChatChoice
deriving Repr, DecidableEq

/-- The request `get_completion_openai` sends (source lines 107–115):
one user message holding the prompt, a JSON-constrained response format,
the given temperature, non-streaming. -/
def openaiRequest (prompt model : String) (temperature : Int) : ChatRequest :=
  { model := model
    response_format := { type := "json_object" }
    messages := [{ role := "user", content := prompt }]
    temperature := temperature
    stream := false }

/-- `get_completion_openai` (source lines 94–116) over an oracle `api`
standing for the OpenAI client: issue the single request and return
`response.choices[0].message.content`; an empty `choices` list would
make the subscription raise. -/
def get_completion_openai (api : ChatRequest → ChatResponse) (prompt model : String)
    (temperature : Int) : Except String String :=
  match (api (openaiRequest prompt model temperature)).choices with
  | [] => Except.error "IndexError: list index out of range"
  | c :: _ => Except.ok c.message.content

/-- The scoring prompt of `sentiment_analyzer` (source lines 141–163),
the Python f-string with its backslash line continuations resolved and
the comment interpolated between the angle-bracket delimiters. -/
def buildPrompt (input : String) : String :=
  "\n    Your task is to perform the following actions based on the social media comment, delimited by <>:\n    \n"
    ++ "    1 - Generate the sentiment analysis for the comment,         assign a score from 1 to 5, where:\n"
    ++ "        1 = Very Negative\n        2 = Negative\n        3 = Neutral\n        4 = Positive\n        5 = Very Positive\n"
    ++ "    2 - Generate the offensive language detection for the comment,         assign a score from 1 to 5, where:\n"
    ++ "        1 = Not Offensive\n        2 = Slightly Offensive\n        3 = Moderately Offensive\n        4 = Offensive\n        5 = Highly Offensive\n"
    ++ "    \n    Format your response as a JSON object with the keys     \x27sentiment_score\x27 and \x27offensive_score\x27. \n\n"
    ++ "    Comment: <" ++ input ++ ">\n    "

/-- The external collaborators of `sentiment_analyzer`, as oracles:
the translation model `nllb_translate_tr_to_eng` (a raised exception is
`Except.error`), the two backend adapters applied to a prompt, and
`json.loads` applied to a reply (`none` models a raised decoding
error). -/
structure Env where
  translate : String → Except String String
  ollama : String → Except String String
  openai : String → Except String String
  decode : String → Option Json

/-- The dispatch block of `sentiment_analyzer` (source lines 132–139):
when `is_local`, translate the input — an exception there propagates —
and select the Ollama adapter; otherwise keep the input and select the
OpenAI adapter. -/
def selectBackend (env : Env) (input : String) (is_local : Bool) :
    Except String (String × (String → Except String String)) :=
  if is_local then
    match env.translate input with
    | Except.error e => Except.error e
    | Except.ok t => Except.ok (t, env.ollama)
  else
    Except.ok (input, env.openai)

/-- `sentiment_analyzer` (source lines 119–172): dispatch, build the
prompt, invoke the selected backend — an exception there propagates —
then the guarded parse step, whose failures alone are absorbed into the
sentinel. -/
def sentiment_analyzer (env : Env) (input : String) (is_local : Bool) :
    Except String ScoreResult :=
  match selectBackend env input is_local with
  | Except.error e => Except.error e
  | Except.ok (text, invokeBackend) =>
    match invokeBackend (buildPrompt text) with
    | Except.error e => Except.error e
    | Except.ok response => Except.ok (parseScores (env.decode response))

/-- The prefix of the stream up to and including the first chunk whose
`done` field is true (a declarative companion used to state the
reassembly claims; `get_completion_ollama` is proved against it). -/
def upToDone : List StreamChunk → List StreamChunk
  | [] => []
  | c :: rest => if c.done then [c] else c :: upToDone rest

/-- The shape the spec claims for every value `analyze` hands back:
the sentinel, or a pair of integers both within the 1–5 rubric. -/
def claimedScoreShape (r : ScoreResult) : Prop :=
  r = ScoreResult.sentinel ∨
    ∃ a b : Int, r = ScoreResult.pair (Json.num a) (Json.num b) ∧
      1 ≤ a ∧ a ≤ 5 ∧ 1 ≤ b ∧ b ≤ 5

lemma collectParts_clean_prefix (pre rest : List StreamChunk)
    (h : ∀ c ∈ pre, c.error = none ∧ c.done = false) :
    collectParts (pre ++ rest) =
      (collectParts rest).map
        (fun ps => pre.map (fun c => c.response.getD "") ++ ps) := by
  induction pre with
  | nil =>
    cases h' : collectParts rest <;> simp [h', Except.map]
  | cons c cs ih =>
    obtain ⟨he, hd⟩ := h c (by simp)
    have hcs : ∀ x ∈ cs, x.error = none ∧ x.done = false :=
      fun x hx => h x (by simp [hx])
    simp only [List.cons_append, collectParts, he, hd, Bool.false_eq_true,
      if_false, List.append_eq]
    rw [ih hcs]
    cases h' : collectParts rest <;> simp [h', Except.map]

lemma collectParts_no_error (chunks : List StreamChunk)
    (h : ∀ c ∈ chunks, c.error = none) :
    collectParts chunks =
      Except.ok ((upToDone chunks).map (fun c => c.response.getD "")) := by
  induction chunks with
  | nil => simp [collectParts, upToDone]
  | cons c cs ih =>
    have he := h c (by simp)
    have hcs : ∀ x ∈ cs, x.error = none := fun x hx => h x (by simp [hx])
    simp only [collectParts, he, upToDone]
    by_cases hd : c.done
    · simp [hd]
    · simp [hd, ih hcs, Except.map]

/-- Claim C4: for every finite error-free chunk sequence, the local
adapter concatenates each chunk's `response` fragment (empty when
absent) in arrival order, stops at the first chunk whose `done` field is
true, and returns the concatenation stripped of leading and trailing
whitespace. -/
theorem ollama_stream_reassembly (chunks : List StreamChunk)
    (h : ∀ c ∈ chunks, c.error = none) :
    get_completion_ollama chunks =
      Except.ok (pyStrip (String.join
        ((upToDone chunks).map (fun c => c.response.getD "")))) := by
  simp [get_completion_ollama, collectParts_no_error chunks h, Except.map]

/-- Witness for C4: the spec's concrete chunk sequence reassembles to
`"Hello"`. -/
theorem ollama_stream_reassembly_witness :
    get_completion_ollama
        [⟨none, some "Hel", false⟩, ⟨none, some "lo", false⟩, ⟨none, some "", true⟩] =
      Except.ok "Hello" :=
  (ollama_stream_reassembly
      [⟨none, some "Hel", false⟩, ⟨none, some "lo", false⟩, ⟨none, some "", true⟩]
      (by decide)).trans
    (congrArg Except.ok (by decide))

/-- Counterexample to C5 as stated: a chunk sequence that does contain
an error-carrying chunk, yet on which `get_completion_ollama` does not
fail — the first chunk's `done` is true, so the loop breaks before the
error chunk is ever examined. -/
theorem ollama_error_after_done_cex :
    (⟨some "model not found", none, false⟩ : StreamChunk) ∈
        [(⟨none, none, true⟩ : StreamChunk), ⟨some "model not found", none, false⟩] ∧
    ∀ msg : String,
      get_completion_ollama
          [(⟨none, none, true⟩ : StreamChunk), ⟨some "model not found", none, false⟩] ≠
        Except.error msg := by
  constructor
  · simp
  · intro msg hmsg
    have hok : get_completion_ollama
        [(⟨none, none, true⟩ : StreamChunk), ⟨some "model not found", none, false⟩] =
        Except.ok "" := rfl
    rw [hok] at hmsg
    exact Except.noConfusion hmsg

/-- Claim C5 (amended): for every chunk sequence whose first
error-carrying chunk occurs before any chunk with `done = true`, the
adapter fails with that chunk's error message, and no chunk after it
affects the outcome (the result is the same for every continuation
`rest`). -/
theorem ollama_error_propagation (pre : List StreamChunk) (e : String)
    (resp : Option String) (d : Bool) (rest : List StreamChunk)
    (h : ∀ c ∈ pre, c.error = none ∧ c.done = false) :
    get_completion_ollama
        (pre ++ { error := some e, response := resp, done := d } :: rest) =
      Except.error e := by
  simp [get_completion_ollama, collectParts_clean_prefix pre _ h, collectParts,
    Except.map]

/-- Witness for C5 (amended): an error chunk arriving mid-stream makes
the adapter fail with its message. -/
theorem ollama_error_propagation_witness :
    get_completion_ollama
        [⟨none, some "par", false⟩, ⟨some "model not found", none, false⟩,
          ⟨none, some "x", true⟩] =
      Except.error "model not found" :=
  ollama_error_propagation [⟨none, some "par", false⟩] "model not found" none false
    [⟨none, some "x", true⟩] (by decide)

/-- Claim C10: each chunk is processed in the order error-check, then
fragment accumulation, then done-check: a chunk carrying both an error
and `done = true` makes the adapter fail with its fragment discarded,
while the fragment of a terminating `done = true` chunk without an error
is included in the returned string. -/
theorem ollama_chunk_processing_order :
    (∀ (pre : List StreamChunk) (e frag : String) (rest : List StreamChunk),
        (∀ c ∈ pre, c.error = none ∧ c.done = false) →
        get_completion_ollama
            (pre ++ { error := some e, response := some frag, done := true } :: rest) =
          Except.error e) ∧
    (∀ (pre : List StreamChunk) (frag : String),
        (∀ c ∈ pre, c.error = none ∧ c.done = false) →
        get_completion_ollama
            (pre ++ [{ error := none, response := some frag, done := true }]) =
          Except.ok (pyStrip (String.join
            (pre.map (fun c => c.response.getD "") ++ [frag])))) := by
  constructor
  · intro pre e frag rest h
    simp [get_completion_ollama, collectParts_clean_prefix pre _ h, collectParts,
      Except.map]
  · intro pre frag h
    simp [get_completion_ollama, collectParts_clean_prefix pre _ h, collectParts,
      Except.map]

/-- Witness for C10: a chunk with both an error and `done = true` fails
with its fragment dropped; the fragment of a clean terminating chunk is
kept. -/
theorem ollama_chunk_processing_order_witness :
    get_completion_ollama
        [⟨none, some "keep", false⟩, ⟨some "boom", some "lost", true⟩] =
      Except.error "boom" ∧
    get_completion_ollama
        [⟨none, some "Hel", false⟩, ⟨none, some "lo!", true⟩] =
      Except.ok "Hello!" := by
  constructor
  · exact ollama_chunk_processing_order.1 [⟨none, some "keep", false⟩] "boom" "lost"
      [] (by decide)
  · exact (ollama_chunk_processing_order.2 [⟨none, some "Hel", false⟩] "lo!"
      (by decide)).trans (congrArg Except.ok (by decide))

/-- Claim C2: the parse step returns the sentinel whenever the reply is
not valid JSON (`json.loads` raises, modelled by `none`) or the decoded
value lacks either required key or has a shape on which key extraction
fails; and the parse step never raises to the caller — once the backend
reply is in hand, `sentiment_analyzer` returns normally whatever the
reply string is. -/
theorem parse_catchall :
    (parseScores none = ScoreResult.sentinel) ∧
    (∀ v : Json,
        getKey v "sentiment_score" = none ∨ getKey v "offensive_score" = none →
        parseScores (some v) = ScoreResult.sentinel) ∧
    (∀ (env : Env) (input tr r : String), env.translate input = Except.ok tr →
        env.ollama (buildPrompt tr) = Except.ok r →
        (sentiment_analyzer env input true).isOk = true) ∧
    (∀ (env : Env) (input r : String), env.openai (buildPrompt input) = Except.ok r →
        (sentiment_analyzer env input false).isOk = true) := by
  refine ⟨rfl, ?_, ?_, ?_⟩
  · intro v hv
    rcases hv with h | h
    · simp [parseScores, h]
    · cases hs : getKey v "sentiment_score" <;> simp [parseScores, hs, h]
  · intro env input tr r ht hr
    simp [sentiment_analyzer, selectBackend, ht, hr, Except.isOk, Except.toBool]
  · intro env input r hr
    simp [sentiment_analyzer, selectBackend, hr, Except.isOk, Except.toBool]

/-- Witness for C2: a JSON object missing `offensive_score` parses to
the sentinel, and `sentiment_analyzer` returns normally on an
undecodable reply with either backend. -/
theorem parse_catchall_witness :
    parseScores (some (Json.obj [("sentiment_score", Json.num 3)])) =
      ScoreResult.sentinel ∧
    (sentiment_analyzer
        ⟨fun _ => Except.ok "t", fun _ => Except.ok "not json",
          fun _ => Except.ok "x", fun _ => none⟩ "c" true).isOk = true ∧
    (sentiment_analyzer
        ⟨fun _ => Except.ok "t", fun _ => Except.ok "x",
          fun _ => Except.ok "not json", fun _ => none⟩ "c" false).isOk = true := by
  refine ⟨?_, ?_, ?_⟩
  · exact parse_catchall.2.1 (Json.obj [("sentiment_score", Json.num 3)]) (Or.inr rfl)
  · exact parse_catchall.2.2.1
      ⟨fun _ => Except.ok "t", fun _ => Except.ok "not json",
        fun _ => Except.ok "x", fun _ => none⟩ "c" "t" "not json" rfl rfl
  · exact parse_catchall.2.2.2
      ⟨fun _ => Except.ok "t", fun _ => Except.ok "x",
        fun _ => Except.ok "not json", fun _ => none⟩ "c" "not json" rfl

/-- Claim C3: when the reply decodes to a JSON value on which both key
extractions yield integers, the parse step returns exactly that pair,
for every pair of integers — no range re-validation is performed. -/
theorem parse_identity (v : Json) (a b : Int)
    (hs : getKey v "sentiment_score" = some (Json.num a))
    (ho : getKey v "offensive_score" = some (Json.num b)) :
    parseScores (some v) = ScoreResult.pair (Json.num a) (Json.num b) := by
  simp [parseScores, hs, ho]

/-- Witness for C3: the out-of-range pair `(9, 0)` is passed through
uninterpreted. -/
theorem parse_identity_witness :
    parseScores
        (some (Json.obj
          [("sentiment_score", Json.num 9), ("offensive_score", Json.num 0)])) =
      ScoreResult.pair (Json.num 9) (Json.num 0) :=
  parse_identity
    (Json.obj [("sentiment_score", Json.num 9), ("offensive_score", Json.num 0)])
    9 0 rfl rfl

/-- Counterexample to C1 as stated: a backend reply decoding to scores
`9` and `0` makes `sentiment_analyzer` return the pair `(9, 0)`, which
is not a pair of integers in `[1,5]` and not the sentinel. -/
theorem analyzer_range_cex :
    sentiment_analyzer
        ⟨fun s => Except.ok s, fun _ => Except.ok "reply", fun _ => Except.ok "reply",
          fun _ => some (Json.obj
            [("sentiment_score", Json.num 9), ("offensive_score", Json.num 0)])⟩
        "a comment" false =
      Except.ok (ScoreResult.pair (Json.num 9) (Json.num 0)) ∧
    ¬ claimedScoreShape (ScoreResult.pair (Json.num 9) (Json.num 0)) := by
  constructor
  · rfl
  · intro h
    rcases h with h | ⟨a, b, hab, ha1, ha5, hb1, hb5⟩
    · exact ScoreResult.noConfusion h
    · injection hab with h9 h0
      injection h9 with h9
      omega

/-- Claim C1 (amended): whenever `sentiment_analyzer` returns normally,
the value is either the sentinel or a pair; and a returned pair is
exactly the two values found under the keys `sentiment_score` and
`offensive_score` of the decoded reply, passed through without
validation. -/
theorem analyzer_result_shape :
    (∀ (env : Env) (input : String) (loc : Bool) (r : ScoreResult),
        sentiment_analyzer env input loc = Except.ok r →
        r = ScoreResult.sentinel ∨ ∃ s o, r = ScoreResult.pair s o) ∧
    (∀ (d : Option Json) (s o : Json), parseScores d = ScoreResult.pair s o →
        ∃ v, d = some v ∧ getKey v "sentiment_score" = some s ∧
          getKey v "offensive_score" = some o) := by
  constructor
  · intro env input loc r _
    cases r with
    | pair s o => exact Or.inr ⟨s, o, rfl⟩
    | sentinel => exact Or.inl rfl
  · intro d s o h
    cases d with
    | none => exact absurd h (by simp [parseScores])
    | some v =>
      refine ⟨v, rfl, ?_⟩
      cases hs : getKey v "sentiment_score" with
      | none => simp [parseScores, hs] at h
      | some s' =>
        cases ho : getKey v "offensive_score" with
        | none => simp [parseScores, hs, ho] at h
        | some o' =>
          simp only [parseScores, hs, ho, ScoreResult.pair.injEq] at h
          obtain ⟨h1, h2⟩ := h
          subst h1
          subst h2
          exact ⟨rfl, rfl⟩

/-- Witness for C1 (amended): a sentinel-valued run, and a pair run
whose components are exactly the stored key values. -/
theorem analyzer_result_shape_witness :
    (ScoreResult.sentinel = ScoreResult.sentinel ∨
      ∃ s o, ScoreResult.sentinel = ScoreResult.pair s o) ∧
    (∃ v,
        some (Json.obj
          [("sentiment_score", Json.num 9), ("offensive_score", Json.num 0)]) =
          some v ∧
        getKey v "sentiment_score" = some (Json.num 9) ∧
        getKey v "offensive_score" = some (Json.num 0)) := by
  constructor
  · exact analyzer_result_shape.1
      ⟨fun s => Except.ok s, fun _ => Except.ok "r", fun _ => Except.ok "r",
        fun _ => none⟩ "c" false ScoreResult.sentinel rfl
  · exact analyzer_result_shape.2
      (some (Json.obj
        [("sentiment_score", Json.num 9), ("offensive_score", Json.num 0)]))
      (Json.num 9) (Json.num 0) rfl

/-- Claim C6: with `is_local = true`, `sentiment_analyzer` runs the
translator and then invokes only the local adapter on a prompt built
from the translated text — the result does not depend on the remote
adapter; with `is_local = false`, it invokes only the remote adapter on
a prompt built from the original text — the result depends on neither
the translator nor the local adapter. -/
theorem analyzer_dispatch :
    (∀ (t lo oa oa' : String → Except String String) (d : String → Option Json)
        (input : String),
        sentiment_analyzer ⟨t, lo, oa, d⟩ input true =
          sentiment_analyzer ⟨t, lo, oa', d⟩ input true) ∧
    (∀ (t t' lo oa : String → Except String String) (d : String → Option Json)
        (input : String),
        sentiment_analyzer ⟨t, lo, oa, d⟩ input false =
          sentiment_analyzer ⟨t', lo, oa, d⟩ input false) ∧
    (∀ (t lo lo' oa : String → Except String String) (d : String → Option Json)
        (input : String),
        sentiment_analyzer ⟨t, lo, oa, d⟩ input false =
          sentiment_analyzer ⟨t, lo', oa, d⟩ input false) ∧
    (∀ (env : Env) (input : String),
        sentiment_analyzer env input true =
          match env.translate input with
          | Except.error e => Except.error e
          | Except.ok tr =>
            match env.ollama (buildPrompt tr) with
            | Except.error e => Except.error e
            | Except.ok r => Except.ok (parseScores (env.decode r))) ∧
    (∀ (env : Env) (input : String),
        sentiment_analyzer env input false =
          match env.openai (buildPrompt input) with
          | Except.error e => Except.error e
          | Except.ok r => Except.ok (parseScores (env.decode r))) := by
  refine ⟨?_, ?_, ?_, ?_, ?_⟩
  · intro t lo oa oa' d input
    rfl
  · intro t t' lo oa d input
    rfl
  · intro t lo lo' oa d input
    rfl
  · intro env input
    cases ht : env.translate input <;>
      simp [sentiment_analyzer, selectBackend, ht]
  · intro env input
    rfl

/-- Claim C7: a translator or backend failure propagates uncaught out
of `sentiment_analyzer` (the call yields exactly that error, never the
sentinel and never a value from the alternate backend); when the
selected backend succeeds, the call returns normally with the parsed
result — parse failures are the only locally absorbed ones. -/
theorem analyzer_error_propagation :
    (∀ (env : Env) (input e : String), env.translate input = Except.error e →
        sentiment_analyzer env input true = Except.error e) ∧
    (∀ (env : Env) (input tr e : String), env.translate input = Except.ok tr →
        env.ollama (buildPrompt tr) = Except.error e →
        sentiment_analyzer env input true = Except.error e) ∧
    (∀ (env : Env) (input e : String), env.openai (buildPrompt input) = Except.error e →
        sentiment_analyzer env input false = Except.error e) ∧
    (∀ (env : Env) (input tr r : String), env.translate input = Except.ok tr →
        env.ollama (buildPrompt tr) = Except.ok r →
        sentiment_analyzer env input true =
          Except.ok (parseScores (env.decode r))) ∧
    (∀ (env : Env) (input r : String), env.openai (buildPrompt input) = Except.ok r →
        sentiment_analyzer env input false =
          Except.ok (parseScores (env.decode r))) := by
  refine ⟨?_, ?_, ?_, ?_, ?_⟩
  · intro env input e ht
    simp [sentiment_analyzer, selectBackend, ht]
  · intro env input tr e ht hb
    simp [sentiment_analyzer, selectBackend, ht, hb]
  · intro env input e hb
    simp [sentiment_analyzer, selectBackend, hb]
  · intro env input tr r ht hb
    simp [sentiment_analyzer, selectBackend, ht, hb]
  · intro env input r hb
    simp [sentiment_analyzer, selectBackend, hb]

/-- Witness for C7: a failing translator surfaces its error; a failing
backend surfaces its error; a succeeding backend with an undecodable
reply returns the sentinel normally. -/
theorem analyzer_error_propagation_witness :
    sentiment_analyzer
        ⟨fun _ => Except.error "translation failed", fun _ => Except.ok "r",
          fun _ => Except.ok "r", fun _ => none⟩ "c" true =
      Except.error "translation failed" ∧
    sentiment_analyzer
        ⟨fun _ => Except.ok "t", fun _ => Except.error "connection refused",
          fun _ => Except.ok "r", fun _ => none⟩ "c" true =
      Except.error "connection refused" ∧
    sentiment_analyzer
        ⟨fun _ => Except.ok "t", fun _ => Except.ok "r",
          fun _ => Except.error "auth failed", fun _ => none⟩ "c" false =
      Except.error "auth failed" ∧
    sentiment_analyzer
        ⟨fun _ => Except.ok "t", fun _ => Except.ok "not json",
          fun _ => Except.ok "r", fun _ => none⟩ "c" true =
      Except.ok ScoreResult.sentinel ∧
    sentiment_analyzer
        ⟨fun _ => Except.ok "t", fun _ => Except.ok "r",
          fun _ => Except.ok "not json", fun _ => none⟩ "c" false =
      Except.ok ScoreResult.sentinel := by
  refine ⟨?_, ?_, ?_, ?_, ?_⟩
  · exact analyzer_error_propagation.1
      ⟨fun _ => Except.error "translation failed", fun _ => Except.ok "r",
        fun _ => Except.ok "r", fun _ => none⟩ "c" "translation failed" rfl
  · exact analyzer_error_propagation.2.1
      ⟨fun _ => Except.ok "t", fun _ => Except.error "connection refused",
        fun _ => Except.ok "r", fun _ => none⟩ "c" "t" "connection refused" rfl rfl
  · exact analyzer_error_propagation.2.2.1
      ⟨fun _ => Except.ok "t", fun _ => Except.ok "r",
        fun _ => Except.error "auth failed", fun _ => none⟩ "c" "auth failed" rfl
  · exact analyzer_error_propagation.2.2.2.1
      ⟨fun _ => Except.ok "t", fun _ => Except.ok "not json",
        fun _ => Except.ok "r", fun _ => none⟩ "c" "t" "not json" rfl rfl
  · exact analyzer_error_propagation.2.2.2.2
      ⟨fun _ => Except.ok "t", fun _ => Except.ok "r",
        fun _ => Except.ok "not json", fun _ => none⟩ "c" "not json" rfl

/-- Claim C8: the remote adapter issues exactly one request carrying the
prompt as the sole user message, a JSON-constrained response format,
temperature 0 and no streaming, and returns the first choice's message
content unmodified — its result is a function of the single response to
that single request. -/
theorem openai_single_request :
    (∀ prompt : String,
        (openaiRequest prompt OPENAI_MODEL 0).messages =
          [{ role := "user", content := prompt }] ∧
        (openaiRequest prompt OPENAI_MODEL 0).response_format =
          { type := "json_object" } ∧
        (openaiRequest prompt OPENAI_MODEL 0).temperature = 0 ∧
        (openaiRequest prompt OPENAI_MODEL 0).stream = false) ∧
    (∀ (api : ChatRequest → ChatResponse) (prompt model : String) (temp : Int)
        (c : ChatChoice) (cs : List ChatChoice),
        (api (openaiRequest prompt model temp)).choices = c :: cs →
        get_completion_openai api prompt model temp =
          Except.ok c.message.content) := by
  constructor
  · intro prompt
    exact ⟨rfl, rfl, rfl, rfl⟩
  · intro api prompt model temp c cs h
    simp [get_completion_openai, h]

/-- Witness for C8: a backend whose single response has one choice makes
the adapter return that choice's content. -/
theorem openai_single_request_witness :
    get_completion_openai (fun _ => ⟨[⟨⟨"assistant", "the reply"⟩⟩]⟩) "p"
        OPENAI_MODEL 0 =
      Except.ok "the reply" :=
  openai_single_request.2 (fun _ => ⟨[⟨⟨"assistant", "the reply"⟩⟩]⟩) "p"
    OPENAI_MODEL 0 ⟨⟨"assistant", "the reply"⟩⟩ [] rfl

/-- Claim C9: the streaming POST request of `get_completion_ollama` is
issued with no timeout at all — `requests.post(url, json=data)` passes
no `timeout` keyword, so its default `timeout=None` applies and no
finite connect/read timeout is imposed. -/
theorem ollama_request_no_timeout :
    ∀ prompt model url : String, (ollamaPostRequest prompt model url).timeout = none :=
  fun _ _ _ => rfl
